import Mathlib

/-!
Verification of the es-mon tool (src/ecs_mon/ecs_mon.py) against its
natural-language specification.  The Python source is shallowly embedded:
each provider call site is modelled by passing the provider response data
explicitly, `sys.exit` and uncaught exceptions are modelled by an `Outcome`
type, and printing is modelled by an accumulated list of lines.
-/

namespace EcsMon

/-- Model of the Python expression `s.split(sep, 1)[-1]` on a single-character
separator: the text after the first occurrence of `sep`, or the whole string
when `sep` does not occur.  Returns the remainder of the character list after
the first `sep`, or `none` when absent. -/
def afterFirst (sep : Char) : List Char → Option (List Char)
  | [] => none
  | c :: cs => if c = sep then some cs else afterFirst sep cs

/-- Python `s.split(sep, 1)[-1]` for a one-character separator `sep`. -/
def py_split1_last (sep : Char) (s : String) : String :=
  match afterFirst sep s.data with
  | some cs => String.mk cs
  | none => s

/-- Modelled from the spec wording: the substring after the last occurrence of
the separator (the whole string when the separator does not occur). -/
def afterLast (sep : Char) (s : String) : String :=
  String.mk ((s.data.reverse.takeWhile (fun c => c ≠ sep)).reverse)

/-- Python `s.lower()` (characters mapped to lower case). -/
def py_lower (s : String) : String := String.mk (s.data.map Char.toLower)

/-- Python `s[:-1]`: the string without its last character. -/
def py_drop_last (s : String) : String := String.mk s.data.dropLast

/-- Whether a DNS name carries a trailing root-dot. -/
def hasTrailingDot (s : String) : Bool := s.data.getLast? == some '.'

/-- Modelled from the spec wording: a DNS name with its trailing root-dot
stripped (unchanged when there is no trailing dot). -/
def stripDot (s : String) : String :=
  if hasTrailingDot s then py_drop_last s else s

/-- One container definition of a task definition (only the image field is
consumed by the tool). -/
structure ContainerDef where
  image : String
deriving DecidableEq, Repr

/-- One element of a `describe_tasks` response. -/
structure TaskDesc where
  taskDefinitionArn : String
  lastStatus : String
deriving DecidableEq, Repr

/-- One row of the task table built by `display_svc_tsk`. -/
structure TaskRow where
  taskId : String
  taskDef : String
  status : String
  imgTag : Option String
deriving DecidableEq, Repr

/-- One page of a paginated `list_services` response. -/
structure SvcPage where
  serviceArns : List String
  nextToken : Option String
deriving DecidableEq, Repr

/-- A load-balancer attachment of an ECS service. -/
structure LoadBalancerAttachment where
  targetGroupArn : String
deriving DecidableEq, Repr

/-- One element of a `describe_services` response. -/
structure SvcDesc where
  loadBalancers : List LoadBalancerAttachment
deriving DecidableEq, Repr

/-- One element of a `describe_target_groups` response. -/
structure TargetGroup where
  LoadBalancerArns : List String
  HealthCheckProtocol : String
  HealthCheckPath : String
deriving DecidableEq, Repr

/-- One element of a `describe_load_balancers` response. -/
structure LoadBalancer where
  DNSName : String
deriving DecidableEq, Repr

/-- The dictionary returned by `get_svc_alb_healthccheck_info`. -/
structure AlbInfo where
  LoadBalancerArns : String
  HealthCheckProtocol : String
  HealthCheckPath : String
  DNSName : String
deriving DecidableEq, Repr

/-- One resource record set of a DNS zone listing.  `rtype` embeds the
record `Type` field (a Lean keyword), `AliasTarget` its alias-target DNS
name when present. -/
structure DnsRecord where
  rtype : String
  Name : String
  AliasTarget : Option String
deriving DecidableEq, Repr

/-- The dictionary returned by `get_dns_records_100x`: a continuation token
and the alias map accumulated from one page of records. -/
structure DnsPage where
  nextToken : Option String
  dnsMap : List (String × String)
deriving DecidableEq, Repr

deriving instance DecidableEq for Except

/-- Python dict assignment `m[k] = v`: the new binding shadows any older one.
Only lookups observe the map, so prepending is observationally faithful. -/
def mapInsert (k v : String) (m : List (String × String)) : List (String × String) :=
  (k, v) :: m

/-- Python dict lookup (`k in m` and `m[k]`): the most recent binding wins. -/
def mapLookup (k : String) (m : List (String × String)) : Option String :=
  (m.find? (fun p => p.1 == k)).map (fun p => p.2)

/-- Embeds `get_svc_tasks_list` (ecs_mon.py lines 17-27): the loop appending
`i.split("/", 1)[-1]` for each returned task ARN. -/
def get_svc_tasks_list (taskArns : List String) : List String :=
  taskArns.foldl (fun acc i => acc ++ [py_split1_last '/' i]) []

/-- Embeds `get_tsk_def_img_tag` (lines 30-39): `img_tag` starts as `None`
and is overwritten with `i["image"].split(":", 1)[-1]` for every container
definition, so the last container definition wins. -/
def get_tsk_def_img_tag (containerDefinitions : List ContainerDef) : Option String :=
  containerDefinitions.foldl (fun _ c => some (py_split1_last ':' c.image)) none

/-- Embeds the row-building loop of `display_svc_tsk` (lines 52-58): row `i`
pairs `task_list[index]` with the i-th element of the `describe_tasks`
response; indexing past the end of `task_list` raises `IndexError`. -/
def display_rows (task_list : List String) (taskDefOf : String → List ContainerDef)
    (idx : Nat) : List TaskDesc → Except String (List TaskRow)
  | [] => .ok []
  | t :: ts =>
    match task_list[idx]? with
    | none => .error "IndexError: list index out of range"
    | some tid =>
      match display_rows task_list taskDefOf (idx + 1) ts with
      | .error e => .error e
      | .ok rows =>
        .ok ({ taskId := tid,
               taskDef := py_split1_last '/' t.taskDefinitionArn,
               status := t.lastStatus,
               imgTag := get_tsk_def_img_tag (taskDefOf t.taskDefinitionArn) } :: rows)

/-- Embeds `display_svc_tsk` (lines 42-59): builds the task table rows from
the task list and the `describe_tasks` response. -/
def display_svc_tsk (task_list : List String) (tasks : List TaskDesc)
    (taskDefOf : String → List ContainerDef) : Except String (List TaskRow) :=
  display_rows task_list taskDefOf 0 tasks

/-- Result of `get_svc_alb_tg_arn`: either `sys.exit(1)` with printed lines,
or the target group ARN. -/
inductive TgArnResult
  | exit1 (msgs : List String)
  | ok (arn : String)
deriving DecidableEq, Repr

/-- Embeds `get_svc_alb_tg_arn` (lines 61-76): empty `services` prints the
not-found message and exits 1; an empty `loadBalancers` list raises
`IndexError`, caught and turned into the no-load-balancer message and
exit 1. -/
def get_svc_alb_tg_arn (svc_n : String) (services : List SvcDesc) : TgArnResult :=
  match services with
  | [] => .exit1 ["Cannot find ECS service: " ++ svc_n]
  | s :: _ =>
    match s.loadBalancers with
    | [] => .exit1 ["This service does not connect to a load balancer.",
                    "list index out of range"]
    | lb :: _ => .ok lb.targetGroupArn

/-- Embeds `get_svc_alb_healthccheck_info` (lines 78-94): indexes `[0]` into
the target-group response, its `LoadBalancerArns`, and the load-balancer
response; an empty list at any of those raises an uncaught `IndexError`. -/
def get_svc_alb_healthccheck_info (TargetGroups : List TargetGroup)
    (LoadBalancers : List LoadBalancer) : Except String AlbInfo :=
  match TargetGroups with
  | [] => .error "IndexError: list index out of range"
  | tg :: _ =>
    match tg.LoadBalancerArns with
    | [] => .error "IndexError: list index out of range"
    | arn :: _ =>
      match LoadBalancers with
      | [] => .error "IndexError: list index out of range"
      | lb :: _ =>
        .ok { LoadBalancerArns := arn,
              HealthCheckProtocol := tg.HealthCheckProtocol,
              HealthCheckPath := tg.HealthCheckPath,
              DNSName := lb.DNSName }

/-- Embeds the pagination of `list_svc` (lines 100-132): the ARNs of the
first page are taken unconditionally, and further pages are fetched and appended
while the page just processed carried a `nextToken`.  Returns the
accumulated ARN list and the number of pages requested. -/
def list_svc_go : List SvcPage → List String × Nat
  | [] => ([], 0)
  | p :: rest =>
    match p.nextToken with
    | none => (p.serviceArns, 1)
    | some _ =>
      let r := list_svc_go rest
      (p.serviceArns ++ r.1, r.2 + 1)

/-- A provider page sequence is well-formed when every page except the last
carries a continuation token and the last page carries none. -/
def tokensChained : List SvcPage → Bool
  | [] => true
  | [p] => p.nextToken.isNone
  | p :: q :: rest => p.nextToken.isSome && tokensChained (q :: rest)

/-- Embeds `svc_list.sort()` (line 133): the Python lexicographic sort of the
accumulated ARN list. -/
def list_svc_sorted (pages : List SvcPage) : List String :=
  (list_svc_go pages).1.mergeSort

/-- The lines printed by the success path of `list_svc` (lines 134-135): one
line per sorted ARN, shortened by `svc.split("/", 1)[-1]`. -/
def list_svc_printed (pages : List SvcPage) : List String :=
  (list_svc_sorted pages).map (fun a => py_split1_last '/' a)

/-- The fold step of `get_dns_records_100x` (lines 164-168): alias-type "A"
records with an alias target are inserted as
`dnsMap[target[:-1]] = name[:-1]`. -/
def dnsStep (m : List (String × String)) (r : DnsRecord) : List (String × String) :=
  if r.rtype == "A" then
    match r.AliasTarget with
    | some t => mapInsert (py_drop_last t) (py_drop_last r.Name) m
    | none => m
  else m

/-- Embeds `get_dns_records_100x` (lines 143-169): builds the alias map from
one page of records and passes the continuation token of the page through. -/
def get_dns_records_100x (records : List DnsRecord) (NextRecordName : Option String) :
    DnsPage :=
  { nextToken := NextRecordName, dnsMap := records.foldl dnsStep [] }

/-- The alias-map keys contributed by a record list, in the form the code uses
(`AliasTarget` DNS name with its last character dropped). -/
def aliasKeys (records : List DnsRecord) : List String :=
  records.filterMap (fun r =>
    if r.rtype == "A" then r.AliasTarget.map (fun t => py_drop_last t) else none)

/-- The `service url:` line printed at lines 220-223. -/
def svc_url_line (info : AlbInfo) : String :=
  "service url: " ++ py_lower info.HealthCheckProtocol ++ "://" ++
    info.DNSName ++ info.HealthCheckPath

/-- The `R53 URL:` line printed at lines 234-239 and 242-247. -/
def r53_url_line (info : AlbInfo) (record : String) : String :=
  "R53 URL: " ++ py_lower info.HealthCheckProtocol ++ "://" ++
    record ++ info.HealthCheckPath

/-- The error text of the Python crash raised by subscripting `None`. -/
def pyNoneTypeErr : String := "TypeError: NoneType object is not subscriptable"

/-- Embeds the `while more["nextToken"]:` loop of main (lines 240-252), with
`cur` the page held in `more` and `rest` the pages a further fetch would
return.  The loop first re-tests the token of the page just fetched, so a
token-less page is never inspected by the body.  Returns the printed R53
line (if any) and the number of fetches performed by the loop body. -/
def dns_while (info : AlbInfo) (cur : DnsPage) (rest : List DnsPage) :
    Option String × Nat :=
  match cur.nextToken with
  | none => (none, 0)
  | some _ =>
    match mapLookup info.DNSName cur.dnsMap with
    | some record => (some (r53_url_line info record), 0)
    | none =>
      match rest with
      | [] => (none, 0)
      | p :: rest2 =>
        let r := dns_while info p rest2
        (r.1, r.2 + 1)

/-- Embeds the whole DNS block of main (lines 230-252): the first page is
fetched unconditionally; when it carries no token the single `if` at
line 232 inspects it, otherwise the `while` loop takes over.  Subscripting
`alb_info` when it is `None` raises `TypeError`.  Returns the printed R53
line (if any) and the total number of page fetches. -/
def dns_block (albInfo : Option AlbInfo) (p0 : DnsPage) (rest : List DnsPage) :
    Except String (Option String × Nat) :=
  match p0.nextToken with
  | none =>
    match albInfo with
    | none => .error pyNoneTypeErr
    | some info => .ok ((mapLookup info.DNSName p0.dnsMap).map (r53_url_line info), 1)
  | some _ =>
    match albInfo with
    | none => .error pyNoneTypeErr
    | some info =>
      let r := dns_while info p0 rest
      .ok (r.1, r.2 + 1)

/-- The parsed command-line options of `parse_args` (lines 184-198). -/
structure Args where
  profile : Option String := none
  svc : Option String := none
  dns : Option String := none
  alb : Bool := false
  cluster : String := "prod"
deriving DecidableEq, Repr

/-- The provider-side data consumed by one run: the process environment and
the responses each API call would return. -/
structure World where
  env : List (String × String) := []
  accountId : String := "111122223333"
  svcPages : Except String (List SvcPage) := .ok []
  services : List SvcDesc := []
  TargetGroups : List TargetGroup := []
  LoadBalancers : List LoadBalancer := []
  taskArns : List String := []
  tasks : List TaskDesc := []
  taskDefOf : String → List ContainerDef := fun _ => []
  dnsFirstRecords : List DnsRecord := []
  dnsFirstToken : Option String := none
  dnsRest : List (List DnsRecord × Option String) := []

/-- How the process ended: `sys.exit(code)`, an uncaught exception, or main
returning normally (process exit status 0). -/
inductive Outcome
  | exit (code : Nat)
  | crash (msg : String)
  | finished
deriving DecidableEq, Repr

/-- The observable result of a run: printed lines, termination, the number of
provider API calls issued, and the number of DNS page fetches among them. -/
structure RunResult where
  printed : List String
  outcome : Outcome
  apiCalls : Nat
  dnsFetches : Nat
deriving DecidableEq, Repr

/-- The exit status of an outcome (`none` for an uncaught exception, which
the interpreter turns into a traceback). -/
def exitCodeOf : Outcome → Option Nat
  | .exit c => some c
  | .crash _ => none
  | .finished => some 0

/-- Python truthiness of an optional string option (`None` and `""` are
falsy). -/
def truthy : Option String → Bool
  | none => false
  | some s => !(s == "")

/-- Membership lookup in the process environment (`os.environ`). -/
def envLookup (env : List (String × String)) (k : String) : Option String :=
  (env.find? (fun p => p.1 == k)).map (fun p => p.2)

/-- Intermediate state of a run of `main`: lines printed so far, API calls
made so far, and the value of the `alb_info` variable. -/
structure MidState where
  printed : List String
  apiCalls : Nat
  albInfo : Option AlbInfo

/-- A textual rendering of one task-table row (table layout itself is a pure
formatting concern, out of scope for the spec). -/
def render_row (r : TaskRow) : String :=
  r.taskId ++ "|" ++ r.taskDef ++ "|" ++ r.status ++ "|" ++ (r.imgTag.getD "None")

/-- The `print(tsk_table)` of line 59, rendered as a single line. -/
def render_table (rows : List TaskRow) : String :=
  "task table: " ++ String.intercalate ";" (rows.map render_row)

/-- The `if args.alb:` block of main (lines 215-223): resolves the target
group (may exit 1), resolves the health-check info (may raise), and prints
the service url line. -/
def alb_step (args : Args) (w : World) (s : MidState) : Except RunResult MidState :=
  if args.alb then
    match get_svc_alb_tg_arn (args.svc.getD "") w.services with
    | .exit1 msgs =>
      .error { printed := s.printed ++ msgs, outcome := .exit 1,
               apiCalls := s.apiCalls + 1, dnsFetches := 0 }
    | .ok _ =>
      match get_svc_alb_healthccheck_info w.TargetGroups w.LoadBalancers with
      | .error e =>
        .error { printed := s.printed, outcome := .crash e,
                 apiCalls := s.apiCalls + 3, dnsFetches := 0 }
      | .ok info =>
        .ok { printed := s.printed ++ [svc_url_line info],
              apiCalls := s.apiCalls + 3, albInfo := some info }
  else .ok s

/-- Lines 224-226 of main: list the tasks of the service and print the task
table; an `IndexError` inside `display_svc_tsk` propagates as a crash. -/
def tasks_step (w : World) (s : MidState) : Except RunResult MidState :=
  let task_list := get_svc_tasks_list w.taskArns
  match display_svc_tsk task_list w.tasks w.taskDefOf with
  | .error e =>
    .error { printed := s.printed, outcome := .crash e,
             apiCalls := s.apiCalls + 2 + w.tasks.length, dnsFetches := 0 }
  | .ok rows =>
    .ok { printed := s.printed ++ [render_table rows],
          apiCalls := s.apiCalls + 2 + w.tasks.length, albInfo := s.albInfo }

/-- Embeds `list_svc` (lines 97-141) as called from main line 228: any
provider failure is caught and printed, and the function returns normally
either way. -/
def list_svc_step (w : World) (s : MidState) : MidState :=
  match w.svcPages with
  | .error e =>
    { printed := s.printed ++ ["Cannot find ECS services from the provided ECS cluster", e],
      apiCalls := s.apiCalls + 1, albInfo := s.albInfo }
  | .ok pages =>
    { printed := s.printed ++ list_svc_printed pages,
      apiCalls := s.apiCalls + (list_svc_go pages).2, albInfo := s.albInfo }

/-- The `if args.dns and args.svc:` block of main (lines 230-252). -/
def dns_step (args : Args) (w : World) (s : MidState) : RunResult :=
  if truthy args.dns && truthy args.svc then
    let p0 := get_dns_records_100x w.dnsFirstRecords w.dnsFirstToken
    let rest := w.dnsRest.map (fun b => get_dns_records_100x b.1 b.2)
    match dns_block s.albInfo p0 rest with
    | .error e =>
      { printed := s.printed, outcome := .crash e,
        apiCalls := s.apiCalls + 1, dnsFetches := 1 }
    | .ok (line, n) =>
      { printed := s.printed ++ line.toList, outcome := .finished,
        apiCalls := s.apiCalls + n, dnsFetches := n }
  else
    { printed := s.printed, outcome := .finished,
      apiCalls := s.apiCalls, dnsFetches := 0 }

/-- Main after profile resolution (lines 211-252): account id and cluster
name are printed, then either the service path (lines 213-226) or the
service listing (line 228), then the DNS block. -/
def main_after_profile (args : Args) (w : World) (pr0 : List String) : RunResult :=
  let s0 : MidState :=
    { printed := pr0 ++ ["account_id: " ++ w.accountId,
                         "cluster name: " ++ args.cluster],
      apiCalls := 1, albInfo := none }
  if truthy args.svc then
    let s1 : MidState := { s0 with printed := s0.printed ++ ["service name: " ++ args.svc.getD ""] }
    match alb_step args w s1 with
    | .error r => r
    | .ok s2 =>
      match tasks_step w s2 with
      | .error r => r
      | .ok s3 => dns_step args w s3
  else
    dns_step args w (list_svc_step w s0)

/-- Embeds `main` (lines 201-252): profile resolution (explicit flag, then
the `AWS_PROFILE` environment fallback, else print-and-exit-1), then the
rest of the run. -/
def main_model (args : Args) (w : World) : RunResult :=
  if truthy args.profile then
    main_after_profile args w []
  else
    match envLookup w.env "AWS_PROFILE" with
    | some v => main_after_profile args w ["aws profile: " ++ v]
    | none =>
      { printed := ["Please provide an AWS profile or set AWS_PROFILE env"],
        outcome := .exit 1, apiCalls := 0, dnsFetches := 0 }

/-! Helper lemmas shared by the claim theorems. -/

theorem foldl_append_eq_map (f : String → String) (acc : List String) (l : List String) :
    l.foldl (fun a i => a ++ [f i]) acc = acc ++ l.map f := by
  induction l generalizing acc with
  | nil => simp
  | cons x xs ih => simp [List.foldl_cons, ih]

theorem get_svc_tasks_list_eq_map (taskArns : List String) :
    get_svc_tasks_list taskArns = taskArns.map (fun a => py_split1_last '/' a) := by
  simpa using foldl_append_eq_map (fun a => py_split1_last '/' a) [] taskArns

theorem foldl_overwrite_getLast (g : ContainerDef → Option String) (a : Option String)
    (l : List ContainerDef) :
    l.foldl (fun _ c => g c) a =
      (match l.getLast? with
       | none => a
       | some c => g c) := by
  induction l generalizing a with
  | nil => rfl
  | cons c cs ih =>
    rw [List.foldl_cons, ih (g c)]
    cases cs with
    | nil => rfl
    | cons d ds =>
      have hx : (d :: ds).getLast?.isSome = true := by
        rw [List.getLast?_isSome]
        simp
      obtain ⟨x, hxx⟩ := Option.isSome_iff_exists.mp hx
      rw [List.getLast?_cons_cons, hxx]

theorem display_rows_ok (tl : List String) (f : String → List ContainerDef)
    (ts : List TaskDesc) :
    ∀ (idx : Nat), idx + ts.length ≤ tl.length →
    ∃ rows, display_rows tl f idx ts = .ok rows ∧
      rows.map TaskRow.taskId = (tl.drop idx).take ts.length := by
  induction ts with
  | nil => intro idx _; exact ⟨[], rfl, by simp⟩
  | cons t ts ih =>
    intro idx h
    have hidx : idx < tl.length := by simp at h; omega
    have hget : tl[idx]? = some tl[idx] := List.getElem?_eq_getElem hidx
    obtain ⟨rows, hrows, hmap⟩ := ih (idx + 1) (by simp at h ⊢; omega)
    refine ⟨⟨tl[idx], py_split1_last '/' t.taskDefinitionArn, t.lastStatus,
            get_tsk_def_img_tag (f t.taskDefinitionArn)⟩ :: rows, ?_, ?_⟩
    · simp [display_rows, hget, hrows]
    · simp only [List.map_cons, hmap, List.length_cons]
      rw [List.drop_eq_getElem_cons hidx, List.take_succ_cons]

theorem list_svc_go_chained (pages : List SvcPage) (h : tokensChained pages = true) :
    list_svc_go pages = ((pages.map SvcPage.serviceArns).flatten, pages.length) := by
  induction pages with
  | nil => rfl
  | cons p rest ih =>
    cases rest with
    | nil =>
      have hp : p.nextToken = none := by
        cases hp : p.nextToken
        · rfl
        · rw [tokensChained, hp] at h; simp at h
      simp [list_svc_go, hp]
    | cons q rest2 =>
      rw [tokensChained] at h
      simp only [Bool.and_eq_true] at h
      obtain ⟨h1, h2⟩ := h
      obtain ⟨tok, htok⟩ := Option.isSome_iff_exists.mp h1
      rw [list_svc_go, htok, ih h2]
      simp

theorem mapLookup_insert_self (k v : String) (m : List (String × String)) :
    mapLookup k (mapInsert k v m) = some v := by
  simp [mapLookup, mapInsert, List.find?]

theorem mapLookup_insert_ne (k k2 v : String) (m : List (String × String)) (h : k2 ≠ k) :
    mapLookup k (mapInsert k2 v m) = mapLookup k m := by
  have hb : (k2 == k) = false := by simp [h]
  simp [mapLookup, mapInsert, List.find?, hb]

theorem lookup_foldl_not_mem (records : List DnsRecord) (k : String) :
    ∀ m, k ∉ aliasKeys records →
    mapLookup k (records.foldl dnsStep m) = mapLookup k m := by
  induction records with
  | nil => intro m _; rfl
  | cons r rest ih =>
    intro m h
    rw [List.foldl_cons]
    cases hA : (r.rtype == "A") with
    | false =>
      have hs : dnsStep m r = m := by simp [dnsStep, hA]
      have hk : k ∉ aliasKeys rest := by
        rw [aliasKeys, List.filterMap_cons] at h
        simpa [hA, aliasKeys] using h
      rw [hs]
      exact ih m hk
    | true =>
      cases hT : r.AliasTarget with
      | none =>
        have hs : dnsStep m r = m := by simp [dnsStep, hA, hT]
        have hk : k ∉ aliasKeys rest := by
          rw [aliasKeys, List.filterMap_cons] at h
          simpa [hA, hT, aliasKeys] using h
        rw [hs]
        exact ih m hk
      | some t =>
        have hs : dnsStep m r = mapInsert (py_drop_last t) (py_drop_last r.Name) m := by
          simp [dnsStep, hA, hT]
        have hk : k ≠ py_drop_last t ∧ k ∉ aliasKeys rest := by
          rw [aliasKeys, List.filterMap_cons] at h
          simpa [hA, hT, aliasKeys] using h
        rw [hs, ih _ hk.2, mapLookup_insert_ne _ _ _ _ (fun he => hk.1 he.symm)]

theorem lookup_foldl_mem (records : List DnsRecord) (r : DnsRecord) (t : String) :
    ∀ m, r ∈ records → r.rtype = "A" → r.AliasTarget = some t →
    (aliasKeys records).Nodup →
    mapLookup (py_drop_last t) (records.foldl dnsStep m) = some (py_drop_last r.Name) := by
  induction records with
  | nil => intro m hmem; cases hmem
  | cons r0 rest ih =>
    intro m hmem hA hT hnd
    rw [List.foldl_cons]
    rcases List.mem_cons.mp hmem with heq | hmem2
    · subst heq
      have hstep : dnsStep m r = mapInsert (py_drop_last t) (py_drop_last r.Name) m := by
        simp [dnsStep, hA, hT]
      have hkeys : aliasKeys (r :: rest) = py_drop_last t :: aliasKeys rest := by
        simp [aliasKeys, List.filterMap_cons, hA, hT]
      rw [hkeys] at hnd
      have hnotin : py_drop_last t ∉ aliasKeys rest := (List.nodup_cons.mp hnd).1
      rw [hstep, lookup_foldl_not_mem rest (py_drop_last t) _ hnotin, mapLookup_insert_self]
    · have hnd2 : (aliasKeys rest).Nodup := by
        cases hA0 : (r0.rtype == "A") with
        | false =>
          have hA0p : ¬ r0.rtype = "A" := by simpa using hA0
          have hkeys : aliasKeys (r0 :: rest) = aliasKeys rest := by
            simp [aliasKeys, List.filterMap_cons, hA0p]
          rw [hkeys] at hnd
          exact hnd
        | true =>
          have hA0p : r0.rtype = "A" := by simpa using hA0
          cases hT0 : r0.AliasTarget with
          | none =>
            have hkeys : aliasKeys (r0 :: rest) = aliasKeys rest := by
              simp [aliasKeys, List.filterMap_cons, hA0p, hT0]
            rw [hkeys] at hnd
            exact hnd
          | some t0 =>
            have hkeys : aliasKeys (r0 :: rest) = py_drop_last t0 :: aliasKeys rest := by
              simp [aliasKeys, List.filterMap_cons, hA0p, hT0]
            rw [hkeys] at hnd
            exact (List.nodup_cons.mp hnd).2
      exact ih (dnsStep m r0) hmem2 hA hT hnd2

/-! Concrete inputs used by claim witnesses. -/

def pagesC1 : List SvcPage :=
  [{ serviceArns := ["arn:aws:ecs:r:1:service/prod/svcB", "arn:aws:ecs:r:1:service/prod/svcA"],
     nextToken := some "tok1" },
   { serviceArns := ["arn:aws:ecs:r:1:service/prod/svcC"], nextToken := none }]

def albInfoC2 : AlbInfo :=
  { LoadBalancerArns := "lb-arn", HealthCheckProtocol := "HTTP",
    HealthCheckPath := "/healthz", DNSName := "lb-123.example.com" }

def dnsPage1C2 : DnsPage :=
  { nextToken := some "page2", dnsMap := [("x.example.com", "my-record.example.com")] }

def dnsPage2C2 : DnsPage :=
  { nextToken := none, dnsMap := [("lb-123.example.com", "app.example.com")] }

def arnsC4 : List String := ["arn:aws:ecs:us-east-1:1:task/prod/1a2b"]

def tasksC4 : List TaskDesc :=
  [{ taskDefinitionArn := "arn:aws:ecs:us-east-1:1:task-definition/web:3",
     lastStatus := "RUNNING" }]

def fC4 : String → List ContainerDef := fun _ => [{ image := "repo:v1" }]

/-! The claim theorems. -/

/-- C1: for every provider page sequence whose last page omits the
continuation cursor (and all earlier pages carry one), `list_svc`
accumulates exactly the concatenation of the `serviceArns` of all pages in page
order, requests exactly one fetch per page (no extra request after the
cursor-less page), and reports a lexicographically sorted permutation of
the accumulated collection. -/
theorem list_svc_paginates_sorts (pages : List SvcPage) (h : tokensChained pages = true) :
    (list_svc_go pages).1 = (pages.map SvcPage.serviceArns).flatten ∧
    (list_svc_go pages).2 = pages.length ∧
    List.Sorted (· ≤ ·) (list_svc_sorted pages) ∧
    (list_svc_sorted pages).Perm (list_svc_go pages).1 := by
  refine ⟨?_, ?_, ?_, ?_⟩
  · rw [list_svc_go_chained pages h]
  · rw [list_svc_go_chained pages h]
  · exact List.sorted_mergeSort' _
  · exact List.mergeSort_perm _ _

/-- C1 witness: the pagination theorem evaluated on a concrete two-page
provider trace. -/
theorem list_svc_paginates_sorts_witness :
    tokensChained pagesC1 = true ∧
    ((list_svc_go pagesC1).1 = (pagesC1.map SvcPage.serviceArns).flatten ∧
     (list_svc_go pagesC1).2 = pagesC1.length ∧
     List.Sorted (· ≤ ·) (list_svc_sorted pagesC1) ∧
     (list_svc_sorted pagesC1).Perm (list_svc_go pagesC1).1) :=
  ⟨by decide, list_svc_paginates_sorts pagesC1 (by decide)⟩

/-- C2: the DNS correlation block of main fetches the final cursor-less page
of a multi-page zone but never inspects it: with the target present only in
the second (final) page, both pages are fetched yet no R53 line is
reported, contradicting the specified behaviour. -/
theorem dns_final_page_dropped :
    dns_block (some albInfoC2) dnsPage1C2 [dnsPage2C2] = .ok (none, 2) ∧
    mapLookup albInfoC2.DNSName dnsPage2C2.dnsMap = some "app.example.com" := by
  decide

/-- C3 counterexample: on an image reference containing two colons the code
returns the text after the first colon, not the text after the last colon
as the claim states. -/
theorem img_tag_last_colon_cex :
    get_tsk_def_img_tag [{ image := "registry.example.com:5000/app:v1" }] =
      some "5000/app:v1" ∧
    afterLast ':' "registry.example.com:5000/app:v1" = "v1" ∧
    some ("5000/app:v1" : String) ≠ some ("v1" : String) := by
  decide

/-- C3 amended: `get_tsk_def_img_tag` returns the text after the first colon
(the whole reference when it has no colon) of the last container
definition image, and `none` when there are zero container
definitions. -/
theorem get_tsk_def_img_tag_first_colon (cds : List ContainerDef) :
    get_tsk_def_img_tag cds = cds.getLast?.map (fun c => py_split1_last ':' c.image) := by
  rw [get_tsk_def_img_tag,
      foldl_overwrite_getLast (fun c => some (py_split1_last ':' c.image)) none cds]
  cases cds.getLast? <;> rfl

/-- C4 counterexample: on a modern two-slash task ARN the extracted
identifier is the substring after the first separator, not after the last
one as the claim states. -/
theorem task_id_last_sep_cex :
    get_svc_tasks_list ["arn:aws:ecs:us-east-1:123456789012:task/mycluster/1a2b3c4d"] =
      ["mycluster/1a2b3c4d"] ∧
    afterLast '/' "arn:aws:ecs:us-east-1:123456789012:task/mycluster/1a2b3c4d" =
      "1a2b3c4d" ∧
    (["mycluster/1a2b3c4d"] : List String) ≠ ["1a2b3c4d"] := by
  decide

/-- C4 amended: the task identifier extracted by `get_svc_tasks_list` (and
echoed as the first column of each row by `display_svc_tsk`) is the
substring after the first separator of the fully-qualified identifier. -/
theorem get_svc_tasks_list_first_sep (taskArns : List String) (tasks : List TaskDesc)
    (f : String → List ContainerDef) (h : tasks.length ≤ taskArns.length) :
    get_svc_tasks_list taskArns = taskArns.map (fun a => py_split1_last '/' a) ∧
    ∃ rows, display_svc_tsk (get_svc_tasks_list taskArns) tasks f = .ok rows ∧
      rows.map TaskRow.taskId = (get_svc_tasks_list taskArns).take tasks.length := by
  refine ⟨get_svc_tasks_list_eq_map taskArns, ?_⟩
  have hlen : tasks.length ≤ (get_svc_tasks_list taskArns).length := by
    rw [get_svc_tasks_list_eq_map]
    simpa using h
  obtain ⟨rows, h1, h2⟩ :=
    display_rows_ok (get_svc_tasks_list taskArns) f tasks 0 (by simpa using hlen)
  exact ⟨rows, h1, by simpa using h2⟩

/-- C4 witness: the amended extraction theorem evaluated on a concrete task
ARN and aligned describe result. -/
theorem get_svc_tasks_list_first_sep_witness :
    tasksC4.length ≤ arnsC4.length ∧
    (get_svc_tasks_list arnsC4 = arnsC4.map (fun a => py_split1_last '/' a) ∧
     ∃ rows, display_svc_tsk (get_svc_tasks_list arnsC4) tasksC4 fC4 = .ok rows ∧
       rows.map TaskRow.taskId = (get_svc_tasks_list arnsC4).take tasksC4.length) :=
  ⟨by decide, get_svc_tasks_list_first_sep arnsC4 tasksC4 fC4 (by decide)⟩

theorem dns_block_none (p0 : DnsPage) (rest : List DnsPage) :
    dns_block none p0 rest = .error pyNoneTypeErr := by
  cases h : p0.nextToken <;> simp [dns_block, h]

@[simp]
theorem truthy_none : truthy none = false := rfl

/-! Concrete inputs for the main-model claims. -/

def argsC6 : Args := { profile := some "dev", svc := some "web", dns := some "Z1THEZONE" }

def argsC7 : Args :=
  { profile := some "dev", svc := some "web", dns := some "Z1THEZONE", alb := true }

def recC7 : DnsRecord :=
  { rtype := "A", Name := "app.example.com.", AliasTarget := some "lb-123.example.com." }

def worldC9 : World :=
  { services := [{ loadBalancers := [{ targetGroupArn := "tg-arn" }] }],
    TargetGroups := [{ LoadBalancerArns := ["lb-arn"], HealthCheckProtocol := "HTTP",
                       HealthCheckPath := "/healthz" }],
    LoadBalancers := [{ DNSName := "lb-123.example.com" }] }

def worldC7 : World := { worldC9 with dnsFirstRecords := [recC7] }

def argsC8 : Args :=
  { profile := some "dev", svc := some "web", dns := some "Z1THEZONE", alb := true }

def worldC8 : World := { services := [{ loadBalancers := [] }] }

def argsC9 : Args := { profile := some "dev", svc := some "web", alb := true }

/-- C5 counterexample: with a profile given and no service option, a failing
service listing prints the diagnostic yet the process finishes with exit
status 0, not the non-zero exit the claim states. -/
theorem list_svc_error_exit_zero_cex :
    exitCodeOf (main_model { profile := some "dev" }
        { svcPages := .error "ClusterNotFoundException" }).outcome = some 0 ∧
    "Cannot find ECS services from the provided ECS cluster" ∈
      (main_model { profile := some "dev" }
        { svcPages := .error "ClusterNotFoundException" }).printed := by
  decide

/-- C5 amended: when the service listing fails (for example because the
cluster does not exist), `list_svc` catches the error, prints the
diagnostic and the error text, and the run continues to normal completion
(exit status 0) rather than aborting or propagating a stack trace. -/
theorem list_svc_error_prints_and_continues (args : Args) (w : World) (e : String)
    (hp : truthy args.profile = true) (hs : args.svc = none)
    (herr : w.svcPages = .error e) :
    (main_model args w).outcome = .finished ∧
    exitCodeOf (main_model args w).outcome = some 0 ∧
    "Cannot find ECS services from the provided ECS cluster" ∈ (main_model args w).printed ∧
    e ∈ (main_model args w).printed := by
  simp [main_model, main_after_profile, list_svc_step, dns_step, exitCodeOf,
        hp, hs, herr]

/-- C5 witness: the amended behaviour evaluated on a concrete failing
listing. -/
theorem list_svc_error_prints_and_continues_witness :
    truthy (some "dev") = true ∧
    ((main_model { profile := some "dev" }
        { svcPages := .error "boom" }).outcome = .finished ∧
     exitCodeOf (main_model { profile := some "dev" }
        { svcPages := .error "boom" }).outcome = some 0 ∧
     "Cannot find ECS services from the provided ECS cluster" ∈
       (main_model { profile := some "dev" } { svcPages := .error "boom" }).printed ∧
     "boom" ∈ (main_model { profile := some "dev" } { svcPages := .error "boom" }).printed) :=
  ⟨by decide, list_svc_error_prints_and_continues _ _ _ (by decide) rfl rfl⟩

/-- C6: when --dns and --svc are given but --alb is not, main reaches the
DNS block with `alb_info` still `None` and crashes subscripting it
(`TypeError`), so crash-free DNS correlation has the unstated precondition
that --alb is also set. -/
theorem dns_without_alb_crashes (args : Args) (w : World)
    (hp : truthy args.profile = true) (hsvc : truthy args.svc = true)
    (hdns : truthy args.dns = true) (halb : args.alb = false)
    (hlen : w.tasks.length ≤ w.taskArns.length) :
    (main_model args w).outcome = .crash pyNoneTypeErr ∧
    exitCodeOf (main_model args w).outcome = none := by
  have hlen2 : 0 + w.tasks.length ≤ (get_svc_tasks_list w.taskArns).length := by
    rw [get_svc_tasks_list_eq_map]
    simpa using hlen
  obtain ⟨rows, hrows, _⟩ :=
    display_rows_ok (get_svc_tasks_list w.taskArns) w.taskDefOf w.tasks 0 hlen2
  simp [main_model, main_after_profile, alb_step, tasks_step, dns_step, display_svc_tsk,
        exitCodeOf, hp, hsvc, hdns, halb, hrows, dns_block_none]

/-- C6 witness: the crash theorem evaluated on concrete options with --dns
and --svc set and --alb absent. -/
theorem dns_without_alb_crashes_witness :
    argsC6.alb = false ∧
    ((main_model argsC6 {}).outcome = .crash pyNoneTypeErr ∧
     exitCodeOf (main_model argsC6 {}).outcome = none) :=
  ⟨rfl, dns_without_alb_crashes argsC6 {} (by decide) (by decide) (by decide) rfl
     (by decide)⟩

/-- C8: with --alb set, a missing service or a service with no load-balancer
attachment prints a diagnostic and exits with status 1, and in the
no-load-balancer case no DNS page is ever fetched even when --dns was
given. -/
theorem alb_missing_service_or_lb_exits (args : Args) (w : World)
    (hp : truthy args.profile = true) (hsvc : truthy args.svc = true)
    (halb : args.alb = true) :
    (w.services = [] →
      (main_model args w).outcome = .exit 1 ∧
      ("Cannot find ECS service: " ++ args.svc.getD "") ∈ (main_model args w).printed ∧
      (main_model args w).dnsFetches = 0) ∧
    (∀ s0 srest, w.services = s0 :: srest → s0.loadBalancers = [] →
      (main_model args w).outcome = .exit 1 ∧
      "This service does not connect to a load balancer." ∈ (main_model args w).printed ∧
      (main_model args w).dnsFetches = 0) := by
  constructor
  · intro hempty
    simp [main_model, main_after_profile, alb_step, get_svc_alb_tg_arn,
          hp, hsvc, halb, hempty]
  · intro s0 srest hserv hlb
    simp [main_model, main_after_profile, alb_step, get_svc_alb_tg_arn,
          hp, hsvc, halb, hserv, hlb]

/-- C8 witness: the no-load-balancer case evaluated on a concrete service
with an empty load-balancer attachment list and --dns also given. -/
theorem alb_missing_service_or_lb_exits_witness :
    worldC8.services = [{ loadBalancers := [] }] ∧
    ((main_model argsC8 worldC8).outcome = .exit 1 ∧
     "This service does not connect to a load balancer." ∈
       (main_model argsC8 worldC8).printed ∧
     (main_model argsC8 worldC8).dnsFetches = 0) :=
  ⟨rfl, (alb_missing_service_or_lb_exits argsC8 worldC8 (by decide) (by decide) rfl).2
      { loadBalancers := [] } [] rfl rfl⟩

/-- C9: with --alb set and a service whose target group resolves to
health-check protocol HTTP, path /healthz and load-balancer DNS name
lb-123.example.com, the printed health-check line is exactly the protocol
lowercased, then ://, the DNS name, and the path. -/
theorem alb_health_url_format (args : Args) (w : World) (s0 : SvcDesc)
    (srest : List SvcDesc) (lb0 : LoadBalancerAttachment)
    (lbrest : List LoadBalancerAttachment) (tg : TargetGroup)
    (tgrest : List TargetGroup) (arn : String) (arnrest : List String)
    (lb : LoadBalancer) (lbrest2 : List LoadBalancer)
    (hp : truthy args.profile = true) (hsvc : truthy args.svc = true)
    (halb : args.alb = true) (hdns : args.dns = none)
    (hserv : w.services = s0 :: srest) (hlbs : s0.loadBalancers = lb0 :: lbrest)
    (htg : w.TargetGroups = tg :: tgrest) (harn : tg.LoadBalancerArns = arn :: arnrest)
    (hlb : w.LoadBalancers = lb :: lbrest2)
    (hproto : tg.HealthCheckProtocol = "HTTP") (hpath : tg.HealthCheckPath = "/healthz")
    (hdnsname : lb.DNSName = "lb-123.example.com")
    (hlen : w.tasks.length ≤ w.taskArns.length) :
    "service url: http://lb-123.example.com/healthz" ∈ (main_model args w).printed := by
  have hlen2 : 0 + w.tasks.length ≤ (get_svc_tasks_list w.taskArns).length := by
    rw [get_svc_tasks_list_eq_map]
    simpa using hlen
  obtain ⟨rows, hrows, _⟩ :=
    display_rows_ok (get_svc_tasks_list w.taskArns) w.taskDefOf w.tasks 0 hlen2
  have hurl : svc_url_line
      { LoadBalancerArns := arn, HealthCheckProtocol := "HTTP",
        HealthCheckPath := "/healthz", DNSName := "lb-123.example.com" } =
      "service url: http://lb-123.example.com/healthz" := by
    have h : py_lower "HTTP" = "http" := by decide
    simp [svc_url_line, h]
  simp [main_model, main_after_profile, alb_step, tasks_step, dns_step, display_svc_tsk,
        get_svc_alb_tg_arn, get_svc_alb_healthccheck_info, hp, hsvc, halb, hdns,
        hserv, hlbs, htg, harn, hlb, hproto, hpath, hdnsname, hrows, hurl]

/-- C9 witness: the health-check URL theorem evaluated on the concrete
end-to-end scenario of the spec. -/
theorem alb_health_url_format_witness :
    argsC9.alb = true ∧
    "service url: http://lb-123.example.com/healthz" ∈
      (main_model argsC9 worldC9).printed :=
  ⟨rfl, alb_health_url_format argsC9 worldC9
     { loadBalancers := [{ targetGroupArn := "tg-arn" }] } []
     { targetGroupArn := "tg-arn" } []
     { LoadBalancerArns := ["lb-arn"], HealthCheckProtocol := "HTTP",
       HealthCheckPath := "/healthz" } [] "lb-arn" []
     { DNSName := "lb-123.example.com" } []
     (by decide) (by decide) rfl rfl rfl rfl rfl rfl rfl rfl rfl rfl (by decide)⟩

/-- C7: every alias-type "A" record with an alias target carrying a trailing
root-dot is mapped (alias target stripped of the dot, to record name
stripped of the dot) by `get_dns_records_100x`, provided the stripped keys
of the page are distinct; and in the end-to-end scenario the printed R53
line is exactly the record name with trailing dots stripped. -/
theorem alias_map_strips_root_dot (records : List DnsRecord) (tok : Option String)
    (r : DnsRecord) (t : String)
    (hmem : r ∈ records) (hA : r.rtype = "A") (hT : r.AliasTarget = some t)
    (hnd : (aliasKeys records).Nodup)
    (hdt : hasTrailingDot t = true) (hdn : hasTrailingDot r.Name = true) :
    mapLookup (stripDot t) (get_dns_records_100x records tok).dnsMap =
      some (stripDot r.Name) ∧
    "R53 URL: http://app.example.com/healthz" ∈ (main_model argsC7 worldC7).printed := by
  constructor
  · have h1 : stripDot t = py_drop_last t := by simp [stripDot, hdt]
    have h2 : stripDot r.Name = py_drop_last r.Name := by simp [stripDot, hdn]
    rw [h1, h2]
    exact lookup_foldl_mem records r t [] hmem hA hT hnd
  · decide

/-- C7 witness: the alias-map theorem evaluated on the concrete alias record
of the end-to-end scenario. -/
theorem alias_map_strips_root_dot_witness :
    recC7 ∈ [recC7] ∧
    (mapLookup (stripDot "lb-123.example.com.")
        (get_dns_records_100x [recC7] none).dnsMap = some (stripDot "app.example.com.") ∧
     "R53 URL: http://app.example.com/healthz" ∈ (main_model argsC7 worldC7).printed) :=
  ⟨by decide, alias_map_strips_root_dot [recC7] none recC7 "lb-123.example.com."
     (by decide) rfl rfl (by decide) (by decide) (by decide)⟩

/-- C10: when --profile is absent and the AWS_PROFILE environment fallback
is absent too, the process prints the profile message and exits with
status 1 before any API call is attempted. -/
theorem missing_profile_exits_before_api (args : Args) (w : World)
    (hp : args.profile = none) (he : envLookup w.env "AWS_PROFILE" = none) :
    main_model args w =
      { printed := ["Please provide an AWS profile or set AWS_PROFILE env"],
        outcome := .exit 1, apiCalls := 0, dnsFetches := 0 } := by
  simp [main_model, hp, he, truthy]

/-- C10 witness: the missing-profile theorem evaluated on empty options and
an empty environment. -/
theorem missing_profile_exits_before_api_witness :
    ({} : Args).profile = none ∧
    main_model {} {} =
      { printed := ["Please provide an AWS profile or set AWS_PROFILE env"],
        outcome := .exit 1, apiCalls := 0, dnsFetches := 0 } :=
  ⟨rfl, missing_profile_exits_before_api {} {} rfl rfl⟩

end EcsMon
